import Mathlib

/-!
Shallow embedding of the WebScrapper extraction engine and crawl
controller, together with proofs about the properties claimed of it.

The embedding follows the TypeScript source:
* `src/unnamed/part_000` (`ScraperConfig`),
* `src/unnamed/part_001` (`ProductDiscovery`),
* `src/unnamed/part_002` (`ProductExtractor`),
* `src/core/universal-scraper.ts` (`UniversalScraper.scrapeProducts`),
* `src/core/stealth-behavior.ts` (`StealthBehavior`).

A rendered document is modelled abstractly: structural queries are
functions from selector strings to the text matches they would return,
and the heading walk of the extractor runs over a flat sibling list of
block elements, as the design notes of the specification prescribe.
-/

namespace WebScrapper

/-! ## String helpers mirroring the JavaScript primitives used by the source -/

/-- Character-list test that `pat` occurs at the start of `s`
(the building block for substring search). -/
def startsWithChars : List Char → List Char → Bool
  | [], _ => true
  | _ :: _, [] => false
  | c :: cs, d :: ds => c == d && startsWithChars cs ds

/-- Character-list substring occurrence test. -/
def containsChars (pat : List Char) : List Char → Bool
  | [] => pat.isEmpty
  | c :: rest => startsWithChars pat (c :: rest) || containsChars pat rest

/-- JavaScript `s.includes(pat)`: substring containment. -/
def containsStr (s pat : String) : Bool :=
  containsChars pat.data s.data

/-- JavaScript `s.trim()`: strip whitespace from both ends.
(A structural reimplementation of `String.trim`, so that terms reduce.) -/
def jsTrim (s : String) : String :=
  String.mk (((s.data.dropWhile Char.isWhitespace).reverse.dropWhile
    Char.isWhitespace).reverse)

/-- JavaScript `s.toLowerCase()` on the ASCII range, as Lean's
`Char.toLower` maps it. -/
def jsToLower (s : String) : String :=
  String.mk (s.data.map Char.toLower)

/-- JavaScript `array.join(sep)`. -/
def jsJoin (sep : String) : List String → String
  | [] => ""
  | [x] => x
  | x :: y :: rest => x ++ sep ++ jsJoin sep (y :: rest)

/-- JavaScript `s.endsWith(suf)`. -/
def jsEndsWith (s suf : String) : Bool :=
  startsWithChars suf.data.reverse s.data.reverse

/-- JavaScript `s.split(sep)` for a one-character separator: no run
collapsing, boundary occurrences produce empty pieces. -/
def jsSplitOnChar (sep : Char) (s : String) : List String :=
  splitGo [] s.data
where
  splitGo (cur : List Char) : List Char → List String
    | [] => [String.mk cur.reverse]
    | c :: rest =>
      if c == sep then String.mk cur.reverse :: splitGo [] rest
      else splitGo (c :: cur) rest

/-- Worker for `collapseWs`; the flag records whether the previously
emitted character came from a whitespace run. -/
def collapseWsGo : Bool → List Char → List Char
  | _, [] => []
  | prevWs, c :: rest =>
    if c.isWhitespace then
      (if prevWs then [] else [' ']) ++ collapseWsGo true rest
    else c :: collapseWsGo false rest

/-- JavaScript `s.replace(/\s+/g, ' ')`: every maximal whitespace run
becomes a single space. -/
def collapseWs (s : String) : String :=
  String.mk (collapseWsGo false s.data)

/-- Worker for `dedupFirst`, carrying the set of strings already kept. -/
def dedupFirstGo (seen : List String) : List String → List String
  | [] => []
  | x :: xs =>
    if seen.contains x then dedupFirstGo seen xs
    else x :: dedupFirstGo (x :: seen) xs

/-- JavaScript `[...new Set(l)]`: drop duplicates, keeping the first
occurrence of each string and preserving order. -/
def dedupFirst (l : List String) : List String :=
  dedupFirstGo [] l

/-- Sentence-terminal punctuation of the description normalizer,
the character class of the regex `[.!?]+`. -/
def isPunct (c : Char) : Bool :=
  c = '.' || c = '!' || c = '?'

/-- Worker for `jsSplitPunct`. The flag records whether the scan is
inside a punctuation run (runs collapse to one split point, exactly as
the regex `[.!?]+` does, and boundary runs produce empty pieces, as
JavaScript `split` does). -/
def splitPunctGo : Bool → List Char → List Char → List (List Char)
  | _, cur, [] => [cur.reverse]
  | inRun, cur, c :: rest =>
    if isPunct c then
      if inRun then splitPunctGo true cur rest
      else cur.reverse :: splitPunctGo true [] rest
    else splitPunctGo false (c :: cur) rest

/-- JavaScript `s.split(/[.!?]+/)`. -/
def jsSplitPunct (s : String) : List String :=
  (splitPunctGo false [] s.data).map String.mk

/-! ## Configuration structures (`src/unnamed/part_000`, `ScraperConfig`) -/

/-- One multi-valued extraction rule: direct selectors plus heading
keywords (the shape of `specifications`, `features`, … in
`ScraperConfig.extractionRules`). -/
structure MultiRule where
  selectors : List String
  headingKeywords : List String

/-- The `extractionRules` block of `ScraperConfig`. `additionalFields`
models the optional open-ended map as an association list. -/
structure ExtractionRules where
  title : List String
  description : List String
  image : List String
  price : List String
  specifications : MultiRule
  features : MultiRule
  benefits : MultiRule
  applications : MultiRule
  details : MultiRule
  resources : MultiRule
  additionalFields : List (String × List String)

/-- The `filters` block of `ScraperConfig`. -/
structure Filters where
  skipUrls : List String
  requiredUrlPatterns : List String
  minDescriptionLength : Nat
  invalidTitleKeywords : List String
  invalidDescriptionKeywords : List String

/-- The `navigation` block of `ScraperConfig` (timing values are kept
although the embedding does not wait). -/
structure NavigationPolicy where
  waitTime : Nat
  maxRetries : Nat
  timeout : Nat

/-- The `productSelectors` block of `ScraperConfig`. -/
structure ProductSelectors where
  containerSelectors : List String
  linkSelectors : List String
  titleSelectors : List String

/-- `ScraperConfig` of `src/unnamed/part_000`. -/
structure ScraperConfig where
  siteName : String
  baseUrl : String
  paginationPattern : String
  productSelectors : ProductSelectors
  extractionRules : ExtractionRules
  navigation : NavigationPolicy
  filters : Filters

/-! ## Rendered product page model and the field extractor
(`src/unnamed/part_002`, `ProductExtractor.extractProduct`) -/

/-- One block-level sibling of the rendered page body, the abstract
tree interface the heading-association walk needs: a heading
(`h1`–`h6`), a list container (`ul`/`ol`, carrying the text of its
`li` children), or any other element with its lower-cased tag name and
its text. -/
inductive Elem where
  | heading (text : String)
  | listContainer (items : List String)
  | para (tag : String) (text : String)

/-- A rendered product page. `queryTexts sel` is the `textContent` of
every element matching `sel`, in document order (`querySelectorAll`);
`queryImg sel` is the `src` of the first element matching `sel`
(`querySelector`), `none` when nothing matches; `blocks` is the sibling
sequence the heading walk traverses. -/
structure Doc where
  queryTexts : String → List String
  queryImg : String → Option String
  blocks : List Elem

/-- Helper `extractBySelectors` of `extractProduct`: all matches of all
selectors, trimmed, kept when longer than 5 characters, deduplicated by
first occurrence. -/
def extractBySelectors (doc : Doc) (selectors : List String) : List String :=
  dedupFirst ((selectors.map
    (fun sel => ((doc.queryTexts sel).map jsTrim).filter
      (fun t => t.length > 5))).flatten)

/-- The sibling walk of helper `extractByHeading`: collect texts from
the blocks following a matched heading until the next heading. List
items are kept when longer than 5 characters; other elements contribute
their text when their tag is in `followingSelectors` and the text is
longer than 10 characters. -/
def collectAfterHeading (followingSelectors : List String) : List Elem → List String
  | [] => []
  | Elem.heading _ :: _ => []
  | Elem.listContainer items :: rest =>
      ((items.map jsTrim).filter (fun t => t.length > 5))
        ++ collectAfterHeading followingSelectors rest
  | Elem.para tag text :: rest =>
      (if followingSelectors.contains (jsToLower tag) ∧ (jsTrim text).length > 10
        then [jsTrim text] else [])
        ++ collectAfterHeading followingSelectors rest

/-- The sibling lists that follow each heading whose text contains
(case-insensitively) one of the keywords. -/
def headingTails (keywords : List String) : List Elem → List (List Elem)
  | [] => []
  | Elem.heading t :: rest =>
      (if keywords.any (fun k => containsStr (jsToLower t) (jsToLower k))
        then [rest] else []) ++ headingTails keywords rest
  | _ :: rest => headingTails keywords rest

/-- Helper `extractByHeading` of `extractProduct`, with its default
`followingSelectors = ['li', 'p']`. -/
def extractByHeading (doc : Doc) (keywords : List String) : List String :=
  dedupFirst (((headingTails keywords doc.blocks).map
    (collectAfterHeading ["li", "p"])).flatten)

/-- First-match-wins text lookup used for the `title` and `price`
rules: the first selector whose first match has non-empty trimmed text. -/
def firstMatchText (doc : Doc) : List String → Option String
  | [] => none
  | sel :: rest =>
    match (doc.queryTexts sel).head? with
    | some t => if jsTrim t ≠ "" then some (jsTrim t) else firstMatchText doc rest
    | none => firstMatchText doc rest

/-- The description collection pass of `extractProduct`: every match of
every description selector whose trimmed text is longer than 20
characters, in selector order. -/
def collectDescriptions (doc : Doc) (selectors : List String) : List String :=
  (selectors.map
    (fun sel => ((doc.queryTexts sel).map jsTrim).filter
      (fun t => t.length > 20))).flatten

/-- The description normalization of `extractProduct`: split on runs of
sentence punctuation; with two or more pieces, keep the first three,
join with a period-space, trim, and append a final period when missing;
otherwise keep the raw text. -/
def normalizeDescription (firstDesc : String) : String :=
  let sentences := jsSplitPunct firstDesc
  if sentences.length ≥ 2 then
    let d := jsTrim (jsJoin ". " (sentences.take 3))
    if jsEndsWith d "." then d else d ++ "."
  else firstDesc

/-- The image rule of `extractProduct`: first selector whose first
match has a non-empty `src` not containing `logo` or `placeholder`. -/
def extractImage (doc : Doc) : List String → String
  | [] => ""
  | sel :: rest =>
    match doc.queryImg sel with
    | some src =>
        if src ≠ "" ∧ ¬containsStr src "logo" ∧ ¬containsStr src "placeholder"
          then src else extractImage doc rest
    | none => extractImage doc rest

/-- Keep only identifier characters, JavaScript
`replace(/[^a-zA-Z0-9-_]/g, '')`. -/
def stripNonId (s : String) : String :=
  String.mk (s.data.filter (fun c => c.isAlphanum || c = '-' || c = '_'))

/-- Product-id derivation of `extractProduct`: last URL path segment,
falling back to the second-to-last when the last is empty, then
stripped to identifier characters; `none` when no non-empty segment is
found (the truthiness guard of the source). -/
def productIdFromUrl (url : String) : Option String :=
  let urlParts := jsSplitOnChar '/' url
  let lastPart :=
    match urlParts.get? (urlParts.length - 1) with
    | some s =>
        if s ≠ "" then some s
        else if urlParts.length ≥ 2 then
          match urlParts.get? (urlParts.length - 2) with
          | some s2 => if s2 ≠ "" then some s2 else none
          | none => none
        else none
    | none => none
  lastPart.map stripNonId

/-- One merged multi-valued field of `extractProduct`: the spread
`[...extractBySelectors(...), ...extractByHeading(...)]`. -/
def extractMulti (doc : Doc) (rule : MultiRule) : List String :=
  extractBySelectors doc rule.selectors ++ extractByHeading doc rule.headingKeywords

/-- The source assigns a multi-valued field only when the merged list
is non-empty. -/
def optList (l : List String) : Option (List String) :=
  if l = [] then none else some l

/-- `ProductData` of `src/unnamed/part_002`; optional fields are `Option`,
the open extension map is an association list. -/
structure ProductData where
  title : String
  description : String
  image : String
  url : String
  specifications : Option (List String)
  features : Option (List String)
  price : Option String
  productId : Option String
  benefits : Option (List String)
  applications : Option (List String)
  details : Option (List String)
  resources : Option (List String)
  extensionFields : List (String × List String)
deriving DecidableEq

/-- The pure body of `ProductExtractor.extractProduct` (the
`page.evaluate` closure): build one `ProductData` from the rendered
page, the product URL and the fallback title. -/
def extractProduct (doc : Doc) (url titleArg : String) (config : ScraperConfig) : ProductData :=
  let rules := config.extractionRules
  { title := (firstMatchText doc rules.title).getD titleArg
    description :=
      match collectDescriptions doc rules.description with
      | [] => ""
      | firstDesc :: _ => normalizeDescription firstDesc
    image := extractImage doc rules.image
    url := url
    price := firstMatchText doc rules.price
    specifications := optList (extractMulti doc rules.specifications)
    features := optList (extractMulti doc rules.features)
    benefits := optList (extractMulti doc rules.benefits)
    applications := optList (extractMulti doc rules.applications)
    details := optList (extractMulti doc rules.details)
    resources := optList (extractMulti doc rules.resources)
    productId := productIdFromUrl url
    extensionFields := rules.additionalFields.filterMap
      (fun nameSels =>
        let values := extractBySelectors doc nameSels.2
        if values = [] then none else some (nameSels.1, values)) }

/-- `ProductExtractor.isValidProduct`. -/
def isValidProduct (product : ProductData) (filters : Filters) : Bool :=
  if product.description.length < filters.minDescriptionLength then false
  else if filters.invalidTitleKeywords.any
      (fun keyword => containsStr (jsToLower product.title) (jsToLower keyword)) then false
  else if filters.invalidDescriptionKeywords.any
      (fun keyword => containsStr (jsToLower product.description) (jsToLower keyword)) then false
  else true

/-- The outer `extractProduct` method: extract, then validate;
`none` models the `null` of a filtered-out record. -/
def extractProductChecked (doc : Doc) (url titleArg : String)
    (config : ScraperConfig) : Option ProductData :=
  let productData := extractProduct doc url titleArg config
  if isValidProduct productData config.filters then some productData else none

/-! ## Listing page model and link discovery
(`src/unnamed/part_001`, `ProductDiscovery`) -/

/-- One element matched by a link selector on a listing page. `href`
is the resolved absolute URL of the anchor (empty when absent);
`ownText` its own `textContent`; `titleAttr`/`altAttr` the `title` and
`alt` attributes (`none` for an absent attribute); `titleQuery sel` the
`textContent` of `element.querySelector(sel)` (`none` when the selector
matches nothing inside the element). -/
structure LinkElem where
  href : String
  ownText : String
  titleAttr : Option String
  altAttr : Option String
  titleQuery : String → Option String

/-- A rendered listing page: `queryLinks sel` is the match list of
`document.querySelectorAll(sel)`, in document order. -/
structure ListingPage where
  queryLinks : String → List LinkElem

/-- A discovered `{url, title}` candidate. -/
structure Candidate where
  url : String
  title : String
deriving DecidableEq

/-- The title-selector loop of `extractProductLinks`: for each title
selector in order, look at the selector's match inside the element,
falling back to the element itself when the selector matches nothing
(`element.querySelector(titleSelector) || element`), and keep the first
non-empty trimmed text. -/
def titleFromSelectors (e : LinkElem) : List String → Option String
  | [] => none
  | sel :: rest =>
    let t := jsTrim ((e.titleQuery sel).getD e.ownText)
    if t ≠ "" then some t else titleFromSelectors e rest

/-- The fallback chain of `extractProductLinks` once the selector loop
produced nothing: own text, `title` attribute, `alt` attribute, then
the positional placeholder. -/
def fallbackTitle (e : LinkElem) (index : Nat) : String :=
  if jsTrim e.ownText ≠ "" then jsTrim e.ownText
  else if e.titleAttr.getD "" ≠ "" then e.titleAttr.getD ""
  else if e.altAttr.getD "" ≠ "" then e.altAttr.getD ""
  else "Product " ++ toString (index + 1)

/-- Full title resolution for one matched element, including the final
whitespace cleanup `title.replace(/\s+/g, ' ').trim()`. -/
def resolveTitle (titleSelectors : List String) (e : LinkElem) (index : Nat) : String :=
  jsTrim (collapseWs ((titleFromSelectors e titleSelectors).getD (fallbackTitle e index)))

/-- The URL filters of `extractProductLinks`: when required patterns
are declared the URL must contain one, and it must contain no skip
pattern. -/
def passesUrlFilters (filters : Filters) (href : String) : Bool :=
  (filters.requiredUrlPatterns.isEmpty
    || filters.requiredUrlPatterns.any (fun pattern => containsStr href pattern))
  && !(filters.skipUrls.any (fun skipUrl => containsStr href skipUrl))

/-- The per-element body of `extractProductLinks`: apply the URL
filters, resolve the title, and keep the candidate when both URL and
title are non-empty. -/
def linkFromElem (config : ScraperConfig) (index : Nat) (e : LinkElem) : Option Candidate :=
  if ¬passesUrlFilters config.filters e.href then none
  else
    let title := resolveTitle config.productSelectors.titleSelectors e index
    if e.href ≠ "" ∧ title ≠ "" then some ⟨e.href, title⟩ else none

/-- All accepted candidates of one link selector, in match order. -/
def linksForSelector (config : ScraperConfig) (page : ListingPage) (sel : String) :
    List Candidate :=
  (page.queryLinks sel).enum.filterMap (fun ie => linkFromElem config ie.1 ie.2)

/-- The link-selector loop of `extractProductLinks`. The source pushes
accepted candidates of each selector into one array and breaks as soon
as that array is non-empty, so the array always equals the accepted
candidates of the first selector that contributed any. -/
def linksLoop (config : ScraperConfig) (page : ListingPage) : List String → List Candidate
  | [] => []
  | sel :: rest =>
    let links := linksForSelector config page sel
    if links.length > 0 then links else linksLoop config page rest

/-- Worker for `dedupeByUrl`, carrying the URLs already kept. -/
def dedupeByUrlGo (seen : List String) : List Candidate → List Candidate
  | [] => []
  | c :: rest =>
    if seen.contains c.url then dedupeByUrlGo seen rest
    else c :: dedupeByUrlGo (c.url :: seen) rest

/-- The final duplicate-removal filter of `extractProductLinks`:
keep each URL's first occurrence, preserving order. -/
def dedupeByUrl (links : List Candidate) : List Candidate :=
  dedupeByUrlGo [] links

/-- `ProductDiscovery.extractProductLinks`, end to end. -/
def extractProductLinks (config : ScraperConfig) (page : ListingPage) : List Candidate :=
  dedupeByUrl (linksLoop config page config.productSelectors.linkSelectors)

/-! ## Navigation retry (`src/unnamed/part_001`, `navigateToPage`) -/

/-- The retry loop of `navigateToPage`. `attempts i` tells whether the
`i`-th `page.goto` succeeds; `fuel` is `maxRetries - retries`, so the
loop body runs exactly while `retries < maxRetries`. The result is
`true` when the method returns and `false` when it rethrows the last
error. -/
def navGo (attempts : Nat → Bool) : Nat → Nat → Bool
  | _, 0 => true
  | retries, fuel + 1 =>
    if attempts retries then true
    else if fuel = 0 then false
    else navGo attempts (retries + 1) fuel

/-- Whether `navigateToPage` succeeds given the attempt outcomes. -/
def navigateToPage (maxRetries : Nat) (attempts : Nat → Bool) : Bool :=
  navGo attempts 0 maxRetries

/-! ## Pacing (`src/core/stealth-behavior.ts`) -/

/-- Observable pacing actions: pointer moves, waits, scrolls. -/
inductive PaceEvent where
  | mouseMove (x y : Nat) (context : String)
  | wait (ms : Nat)
  | scroll (amount : Nat)
deriving DecidableEq

/-- `getRandomDelay(min, max)` applied to one random draw `r`. -/
def getRandomDelay (r mn mx : Nat) : Nat :=
  r % (mx - mn + 1) + mn

/-- `StealthBehavior.simulateHumanBehavior`: nothing when stealth mode
is off; otherwise a pointer move, a context delay, and sometimes a
scroll with its pause. Randomness is modelled as a draw stream `rng`
with a cursor `k`; the result pairs the emitted events with the new
cursor. -/
def simulateHumanBehavior (stealth : Bool) (rng : Nat → Nat) (k : Nat)
    (context : String) : List PaceEvent × Nat :=
  if ¬stealth then ([], k)
  else
    let delay := getRandomDelay (rng k) 1000 3000
    let x := getRandomDelay (rng (k + 1)) 100 1200
    let y := getRandomDelay (rng (k + 2)) 100 800
    if rng (k + 3) % 10 > 7 then
      let amount := rng (k + 4) % 500 + 200
      let pause := getRandomDelay (rng (k + 5)) 500 1200
      ([PaceEvent.mouseMove x y context, PaceEvent.wait delay,
        PaceEvent.scroll amount, PaceEvent.wait pause], k + 6)
    else
      ([PaceEvent.mouseMove x y context, PaceEvent.wait delay], k + 4)

/-- `StealthBehavior.randomDelay`: a fixed one-second wait when stealth
mode is off, otherwise a draw from the given range. -/
def randomDelay (stealth : Bool) (rng : Nat → Nat) (k mn mx : Nat) :
    List PaceEvent × Nat :=
  if ¬stealth then ([PaceEvent.wait 1000], k)
  else ([PaceEvent.wait (getRandomDelay (rng k) mn mx)], k + 1)

/-! ## Crawl controller (`src/core/universal-scraper.ts`, `scrapeProducts`) -/

/-- The crawl environment: everything the renderer would answer.
`listingAttempts p i` is the outcome of the `i`-th navigation attempt
to listing page `p`; `listingPage p` its content once reached;
`productNav u` whether `page.goto(u)` on a product URL succeeds;
`productDoc u` the product page content. -/
structure Env where
  listingAttempts : Nat → Nat → Bool
  listingPage : Nat → ListingPage
  productNav : String → Bool
  productDoc : String → Doc

/-- `ProductDiscovery.getProductLinksFromPage` as seen by the
controller: `none` when listing navigation exhausts its retries and the
error propagates, otherwise the discovered candidates. -/
def getProductLinksFromPage (env : Env) (config : ScraperConfig) (pageNumber : Nat) :
    Option (List Candidate) :=
  if navigateToPage config.navigation.maxRetries (env.listingAttempts pageNumber) then
    some (extractProductLinks config (env.listingPage pageNumber))
  else none

/-- Outcome of the per-candidate loop of one listing page. `threw`
records that a product navigation failed, which in the source escapes
to the page-level `catch`. `productVisits` lists the product URLs for
which a navigation was attempted. -/
structure PageOutcome where
  products : List ProductData
  productVisits : List String
  events : List PaceEvent
  rngIdx : Nat
  threw : Bool

/-- The `for` loop over one page's candidates in `scrapeProducts`:
navigate to the candidate (an exception here aborts the whole loop),
simulate reading, extract and validate, keep accepted records, and
pause between candidates. -/
def processProducts (env : Env) (config : ScraperConfig) (stealth : Bool)
    (rng : Nat → Nat) : List Candidate → Nat → PageOutcome
  | [], k => ⟨[], [], [], k, false⟩
  | link :: rest, k =>
    if env.productNav link.url then
      let readPace := simulateHumanBehavior stealth rng k "reading"
      let extracted := extractProductChecked (env.productDoc link.url) link.url link.title config
      let betweenPace :=
        if rest ≠ [] then randomDelay stealth rng readPace.2 2000 5000
        else ([], readPace.2)
      let tail := processProducts env config stealth rng rest betweenPace.2
      ⟨(match extracted with
        | some p => p :: tail.products
        | none => tail.products),
       link.url :: tail.productVisits,
       readPace.1 ++ betweenPace.1 ++ tail.events,
       tail.rngIdx,
       tail.threw⟩
    else
      ⟨[], [link.url], [], k, true⟩

/-- The observable outcome of one crawl: accepted records in order,
the listing pages entered (with the empty streak at entry), the product
URLs navigated to, the pacing events, and the final loop counters. -/
structure CrawlResult where
  products : List ProductData
  visited : List (Nat × Nat)
  productVisits : List String
  events : List PaceEvent
  finalPage : Nat
  finalEmpty : Nat

/-- The `while` loop of `scrapeProducts`. `fuel` bounds the number of
remaining iterations (the source's loop variable `currentPage` strictly
increases, so `maxPages + 1` fuel is always enough); `page` and `empty`
are `currentPage` and `emptyPagesCount`; `maxEmptyPages` is the
constant 2 of the source. -/
def scrapeLoop (env : Env) (config : ScraperConfig) (stealth : Bool)
    (rng : Nat → Nat) (maxPages : Nat) :
    Nat → Nat → Nat → Nat → CrawlResult
  | 0, page, empty, _ => ⟨[], [], [], [], page, empty⟩
  | fuel + 1, page, empty, k =>
    if page ≤ maxPages ∧ empty < 2 then
      let browsePace := simulateHumanBehavior stealth rng k "browsing"
      match getProductLinksFromPage env config page with
      | none =>
        let cont := scrapeLoop env config stealth rng maxPages fuel (page + 1) (empty + 1) browsePace.2
        ⟨cont.products, (page, empty) :: cont.visited, cont.productVisits,
         browsePace.1 ++ cont.events, cont.finalPage, cont.finalEmpty⟩
      | some pageLinks =>
        if pageLinks = [] then
          let pagePause :=
            if page + 1 ≤ maxPages ∧ empty + 1 < 2
              then randomDelay stealth rng browsePace.2 5000 10000
              else ([], browsePace.2)
          let cont := scrapeLoop env config stealth rng maxPages fuel (page + 1) (empty + 1) pagePause.2
          ⟨cont.products, (page, empty) :: cont.visited, cont.productVisits,
           browsePace.1 ++ pagePause.1 ++ cont.events, cont.finalPage, cont.finalEmpty⟩
        else
          let out := processProducts env config stealth rng pageLinks browsePace.2
          if out.threw then
            let cont := scrapeLoop env config stealth rng maxPages fuel (page + 1) 1 out.rngIdx
            ⟨out.products ++ cont.products, (page, empty) :: cont.visited,
             out.productVisits ++ cont.productVisits,
             browsePace.1 ++ out.events ++ cont.events, cont.finalPage, cont.finalEmpty⟩
          else
            let pagePause :=
              if page + 1 ≤ maxPages ∧ (0 : Nat) < 2
                then randomDelay stealth rng out.rngIdx 5000 10000
                else ([], out.rngIdx)
            let cont := scrapeLoop env config stealth rng maxPages fuel (page + 1) 0 pagePause.2
            ⟨out.products ++ cont.products, (page, empty) :: cont.visited,
             out.productVisits ++ cont.productVisits,
             browsePace.1 ++ out.events ++ pagePause.1 ++ cont.events,
             cont.finalPage, cont.finalEmpty⟩
    else ⟨[], [], [], [], page, empty⟩

/-- `UniversalScraper.scrapeProducts`: the loop started at page 1 with
an empty streak of 0. -/
def scrapeProducts (env : Env) (config : ScraperConfig) (stealth : Bool)
    (rng : Nat → Nat) (maxPages : Nat) : CrawlResult :=
  scrapeLoop env config stealth rng maxPages (maxPages + 1) 1 0 0

/-! ## Definitions taken from the specification's words, for comparison
with the embedded source -/

/-- The description recipe exactly as the specification words it:
split on sentence punctuation, keep at most the first three pieces,
rejoin with a period-space, and append a trailing period when absent
(no trim of the rejoined text); with fewer than two pieces, the raw
text. Compared against `normalizeDescription` of the source. -/
def specDescriptionRecipe (text : String) : String :=
  let sentences := jsSplitPunct text
  if sentences.length ≥ 2 then
    let d := jsJoin ". " (sentences.take 3)
    if jsEndsWith d "." then d else d ++ "."
  else text

/-- Title resolution exactly as the specification words it: the first
non-empty trimmed text obtained by evaluating each title selector
relative to the element, looking only at entries that match. Compared
against `titleFromSelectors` of the source. -/
def specTitleFromSelectors (e : LinkElem) : List String → Option String
  | [] => none
  | sel :: rest =>
    match e.titleQuery sel with
    | some s => if jsTrim s ≠ "" then some (jsTrim s) else specTitleFromSelectors e rest
    | none => specTitleFromSelectors e rest

/-! ## Helper lemmas -/

theorem contains_eq_true_iff_mem (l : List String) (a : String) :
    l.contains a = true ↔ a ∈ l :=
  List.elem_iff

theorem dedupFirstGo_cons (seen : List String) (a : String) (as : List String) :
    dedupFirstGo seen (a :: as) =
      if a ∈ seen then dedupFirstGo seen as else a :: dedupFirstGo (a :: seen) as := by
  by_cases h : a ∈ seen
  · rw [dedupFirstGo, if_pos ((contains_eq_true_iff_mem seen a).mpr h), if_pos h]
  · rw [dedupFirstGo,
      if_neg (fun hc => h ((contains_eq_true_iff_mem seen a).mp hc)), if_neg h]

theorem mem_dedupFirstGo (l : List String) (seen : List String) (x : String) :
    x ∈ dedupFirstGo seen l ↔ x ∈ l ∧ x ∉ seen := by
  induction l generalizing seen with
  | nil => simp [dedupFirstGo]
  | cons a as ih =>
    rw [dedupFirstGo_cons]
    by_cases h : a ∈ seen
    · rw [if_pos h, ih]
      constructor
      · rintro ⟨hx, hns⟩; exact ⟨List.mem_cons_of_mem _ hx, hns⟩
      · rintro ⟨hx, hns⟩
        rcases List.mem_cons.mp hx with rfl | hx
        · exact absurd h hns
        · exact ⟨hx, hns⟩
    · rw [if_neg h]
      simp only [List.mem_cons, ih]
      constructor
      · rintro (rfl | ⟨hx, hns⟩)
        · exact ⟨Or.inl rfl, h⟩
        · exact ⟨Or.inr hx, fun hmem => hns (Or.inr hmem)⟩
      · rintro ⟨rfl | hx, hns⟩
        · exact Or.inl rfl
        · by_cases hxa : x = a
          · exact Or.inl hxa
          · exact Or.inr ⟨hx, fun hmem => hmem.elim hxa hns⟩

theorem nodup_dedupFirstGo (l : List String) (seen : List String) :
    (dedupFirstGo seen l).Nodup := by
  induction l generalizing seen with
  | nil => simp [dedupFirstGo]
  | cons a as ih =>
    rw [dedupFirstGo_cons]
    by_cases h : a ∈ seen
    · rw [if_pos h]; exact ih seen
    · rw [if_neg h]
      refine List.nodup_cons.mpr ⟨fun hmem => ?_, ih (a :: seen)⟩
      exact ((mem_dedupFirstGo as (a :: seen) a).mp hmem).2 (List.mem_cons_self a seen)

theorem nodup_dedupFirst (l : List String) : (dedupFirst l).Nodup :=
  nodup_dedupFirstGo l []

theorem mem_dedupFirst (l : List String) (x : String) :
    x ∈ dedupFirst l ↔ x ∈ l := by
  simpa using mem_dedupFirstGo l [] x

theorem nodup_extractBySelectors (doc : Doc) (selectors : List String) :
    (extractBySelectors doc selectors).Nodup :=
  nodup_dedupFirst _

theorem nodup_extractByHeading (doc : Doc) (keywords : List String) :
    (extractByHeading doc keywords).Nodup :=
  nodup_dedupFirst _

theorem optList_eq_some {m l : List String} (h : optList m = some l) : l = m := by
  by_cases hm : m = []
  · simp [optList, hm] at h
  · simp only [optList, hm, if_neg] at h
    exact (Option.some_inj.mp h).symm

/-! ## Concrete fixtures used by witnesses and counterexamples -/

/-- A multi-valued rule with no selectors and no keywords. -/
def emptyMultiRule : MultiRule := ⟨[], []⟩

/-- Extraction rules with every rule list empty. -/
def baseRules : ExtractionRules :=
  ⟨[], [], [], [], emptyMultiRule, emptyMultiRule, emptyMultiRule,
    emptyMultiRule, emptyMultiRule, emptyMultiRule, []⟩

/-- A filter policy that accepts everything. -/
def baseFilters : Filters := ⟨[], [], 0, [], []⟩

/-- A navigation policy with three retries, as in the spec scenarios. -/
def baseNavigation : NavigationPolicy := ⟨0, 3, 0⟩

/-- Discovery selectors, all empty. -/
def baseSelectors : ProductSelectors := ⟨[], [], []⟩

/-- A minimal configuration to specialize per fixture. -/
def baseConfig : ScraperConfig :=
  ⟨"site", "http://base", "?page=", baseSelectors, baseRules, baseNavigation, baseFilters⟩

/-- A product page with no matches at all. -/
def emptyDoc : Doc := ⟨fun _ => [], fun _ => none, []⟩

/-- Product page for the duplicate-merge counterexample: the direct
selector `.f` matches the text `Durable`, and a `Features` heading is
followed by a list whose items are `Durable` and `Lightweight`. -/
def cexDoc1 : Doc where
  queryTexts := fun sel => if sel == ".f" then ["Durable"] else []
  queryImg := fun _ => none
  blocks := [Elem.heading "Features", Elem.listContainer ["Durable", "Lightweight"]]

/-- Configuration whose `features` rule has both a direct selector and
a heading keyword. -/
def cexConfig1 : ScraperConfig :=
  { baseConfig with
    extractionRules := { baseRules with features := ⟨[".f"], ["features"]⟩ } }

/-! ## C1: merge/dedupe of multi-valued fields -/

/-- The shape the merged multi-valued lists actually have: direct
matches followed by heading matches, each half duplicate-free, so a
string occurs at most twice and occurs twice exactly when both halves
contain it. -/
def mergedFieldShape (A B l : List String) : Prop :=
  l = A ++ B ∧ A.Nodup ∧ B.Nodup ∧
  (∀ s : String, l.count s ≤ 2) ∧
  (∀ s : String, l.count s = 2 → s ∈ A ∧ s ∈ B)

theorem extractMulti_shape (doc : Doc) (rule : MultiRule) :
    mergedFieldShape (extractBySelectors doc rule.selectors)
      (extractByHeading doc rule.headingKeywords) (extractMulti doc rule) := by
  have hA := nodup_extractBySelectors doc rule.selectors
  have hB := nodup_extractByHeading doc rule.headingKeywords
  refine ⟨rfl, hA, hB, ?_, ?_⟩
  · intro s
    rw [extractMulti, List.count_append]
    exact Nat.add_le_add (List.nodup_iff_count_le_one.mp hA s)
      (List.nodup_iff_count_le_one.mp hB s)
  · intro s h
    rw [extractMulti, List.count_append] at h
    have h1 := List.nodup_iff_count_le_one.mp hA s
    have h2 := List.nodup_iff_count_le_one.mp hB s
    have hA1 : 0 < (extractBySelectors doc rule.selectors).count s := by omega
    have hB1 : 0 < (extractByHeading doc rule.headingKeywords).count s := by omega
    exact ⟨List.count_pos_iff.mp hA1, List.count_pos_iff.mp hB1⟩

/-- C1, counterexample: when the direct-selector list and the
heading-associated list share a string, the merged `features` list of
the extracted record contains that string twice — the source spreads
the two lists without deduplicating across them, so the claimed
no-duplicate invariant fails. -/
theorem extractProduct_features_duplicate_cex :
    (extractProduct cexDoc1 "http://x/p" "fallback" cexConfig1).features
      = some ["Durable", "Durable", "Lightweight"] ∧
    ¬ (["Durable", "Durable", "Lightweight"] : List String).Nodup :=
  ⟨by decide, by decide⟩

/-- C1 (amended): every multi-valued field of an extracted record is
the concatenation of the direct-match list and the heading-associated
list, each individually deduplicated by first occurrence; the
concatenation itself is not deduplicated, so a string can occur twice,
and only when it occurs in both halves. -/
theorem extractProduct_multi_field_merge (doc : Doc) (url titleArg : String)
    (config : ScraperConfig) :
    (∀ l, (extractProduct doc url titleArg config).specifications = some l →
      mergedFieldShape (extractBySelectors doc config.extractionRules.specifications.selectors)
        (extractByHeading doc config.extractionRules.specifications.headingKeywords) l) ∧
    (∀ l, (extractProduct doc url titleArg config).features = some l →
      mergedFieldShape (extractBySelectors doc config.extractionRules.features.selectors)
        (extractByHeading doc config.extractionRules.features.headingKeywords) l) ∧
    (∀ l, (extractProduct doc url titleArg config).benefits = some l →
      mergedFieldShape (extractBySelectors doc config.extractionRules.benefits.selectors)
        (extractByHeading doc config.extractionRules.benefits.headingKeywords) l) ∧
    (∀ l, (extractProduct doc url titleArg config).applications = some l →
      mergedFieldShape (extractBySelectors doc config.extractionRules.applications.selectors)
        (extractByHeading doc config.extractionRules.applications.headingKeywords) l) ∧
    (∀ l, (extractProduct doc url titleArg config).details = some l →
      mergedFieldShape (extractBySelectors doc config.extractionRules.details.selectors)
        (extractByHeading doc config.extractionRules.details.headingKeywords) l) ∧
    (∀ l, (extractProduct doc url titleArg config).resources = some l →
      mergedFieldShape (extractBySelectors doc config.extractionRules.resources.selectors)
        (extractByHeading doc config.extractionRules.resources.headingKeywords) l) := by
  refine ⟨?_, ?_, ?_, ?_, ?_, ?_⟩ <;>
    (intro l h
     rw [optList_eq_some h]
     exact extractMulti_shape doc _)

/-- C1 witness: the amended shape holds at the counterexample record. -/
theorem extractProduct_multi_field_merge_witness :
    mergedFieldShape (extractBySelectors cexDoc1 cexConfig1.extractionRules.features.selectors)
      (extractByHeading cexDoc1 cexConfig1.extractionRules.features.headingKeywords)
      ["Durable", "Durable", "Lightweight"] :=
  (extractProduct_multi_field_merge cexDoc1 "http://x/p" "fallback" cexConfig1).2.1
    ["Durable", "Durable", "Lightweight"] (by decide)

/-! ## C10: pages without a long description text -/

/-- Product page whose only description match is 10 characters long. -/
def cexDoc10 : Doc :=
  ⟨fun sel => if sel == ".d" then ["short text"] else [], fun _ => none, []⟩

/-- Configuration with one description selector and nothing else. -/
def cexConfig10 : ScraperConfig :=
  { baseConfig with extractionRules := { baseRules with description := [".d"] } }

/-- C10: when no description selector matches a text whose trimmed
length exceeds 20, the extractor still returns a record and its
description is the empty string, so any policy with a positive minimum
description length rejects it. -/
theorem extractProduct_short_descriptions (doc : Doc) (url titleArg : String)
    (config : ScraperConfig)
    (h : ∀ sel ∈ config.extractionRules.description, ∀ txt ∈ doc.queryTexts sel,
      (jsTrim txt).length ≤ 20) :
    (extractProduct doc url titleArg config).description = "" ∧
    ∀ filters : Filters, 1 ≤ filters.minDescriptionLength →
      isValidProduct (extractProduct doc url titleArg config) filters = false := by
  have hcol : collectDescriptions doc config.extractionRules.description = [] := by
    rw [collectDescriptions, List.flatten_eq_nil_iff]
    intro l hl
    rcases List.mem_map.mp hl with ⟨sel, hsel, rfl⟩
    rw [List.filter_eq_nil_iff]
    intro t ht
    rcases List.mem_map.mp ht with ⟨txt, htxt, rfl⟩
    have hle := h sel hsel txt htxt
    simp only [decide_eq_true_eq]
    omega
  have hdesc : (extractProduct doc url titleArg config).description = "" := by
    simp only [extractProduct, hcol]
  refine ⟨hdesc, fun filters hmin => ?_⟩
  have hlt : (extractProduct doc url titleArg config).description.length
      < filters.minDescriptionLength := by
    rw [hdesc]; exact hmin
  simp only [isValidProduct, hlt, if_pos]

/-- C10 witness: a concrete page whose single description match is
short yields an empty description and is rejected at minimum length 1. -/
theorem extractProduct_short_descriptions_witness :
    (extractProduct cexDoc10 "http://x/p" "t" cexConfig10).description = "" ∧
    isValidProduct (extractProduct cexDoc10 "http://x/p" "t" cexConfig10)
      { baseFilters with minDescriptionLength := 1 } = false := by
  have h := extractProduct_short_descriptions cexDoc10 "http://x/p" "t" cexConfig10
    (by decide)
  exact ⟨h.1, h.2 _ (by decide)⟩

/-! ## C6: description normalization -/

/-- Product page whose description match is a two-sentence text. -/
def cexDoc6 : Doc :=
  ⟨fun sel => if sel == ".d" then ["Apple pie is good. Cake too."] else [],
   fun _ => none, []⟩

/-- Configuration with one description selector and nothing else. -/
def cexConfig6 : ScraperConfig :=
  { baseConfig with extractionRules := { baseRules with description := [".d"] } }

/-- C6, counterexample: the source trims the rejoined text before the
trailing-period check, the claimed recipe does not; on a winning text
ending in a period the two computations differ (the claimed recipe
appends a second period after the dangling join separator). -/
theorem extractProduct_description_trim_cex :
    (extractProduct cexDoc6 "http://x/p" "t" cexConfig6).description
      = "Apple pie is good.  Cake too." ∧
    specDescriptionRecipe "Apple pie is good. Cake too."
      = "Apple pie is good.  Cake too. ." ∧
    ("Apple pie is good.  Cake too." : String) ≠ "Apple pie is good.  Cake too. ." :=
  ⟨by decide, by decide, by decide⟩

/-- C6 (amended): with a winning description text `w`, the record's
description splits `w` on runs of sentence punctuation; with two or
more pieces it keeps the first three, rejoins them with a
period-space, trims the surrounding whitespace of the rejoined text,
and appends a trailing period when absent; with fewer than two pieces
the description is the raw winning text. -/
theorem extractProduct_description_recipe (doc : Doc) (url titleArg : String)
    (config : ScraperConfig) (w : String) (rest : List String)
    (h : collectDescriptions doc config.extractionRules.description = w :: rest) :
    ((extractProduct doc url titleArg config).description
      = (if (jsSplitPunct w).length ≥ 2 then
           (let d := jsTrim (jsJoin ". " ((jsSplitPunct w).take 3))
            if jsEndsWith d "." then d else d ++ ".")
         else w)) ∧
    ((jsSplitPunct w).length < 2 →
      (extractProduct doc url titleArg config).description = w) := by
  have h1 : (extractProduct doc url titleArg config).description
      = normalizeDescription w := by
    simp only [extractProduct, h]
  refine ⟨h1.trans rfl, fun hlt => ?_⟩
  rw [h1, normalizeDescription, if_neg (by omega)]

/-- C6 witness: the amended recipe evaluated at the two-sentence
fixture. -/
theorem extractProduct_description_recipe_witness :
    (extractProduct cexDoc6 "http://x/p" "t" cexConfig6).description
      = (if (jsSplitPunct "Apple pie is good. Cake too.").length ≥ 2 then
           (let d := jsTrim (jsJoin ". "
              ((jsSplitPunct "Apple pie is good. Cake too.").take 3))
            if jsEndsWith d "." then d else d ++ ".")
         else "Apple pie is good. Cake too.") :=
  (extractProduct_description_recipe cexDoc6 "http://x/p" "t" cexConfig6
    "Apple pie is good. Cake too." [] (by decide)).1

/-! ## C7: record validation -/

/-- A record whose title carries the blocked keyword but whose
description is long. -/
def product404 : ProductData :=
  ⟨"Widget 404 Not Found", "a sufficiently long description", "", "http://x",
   none, none, none, none, none, none, none, none, []⟩

/-- A filter policy blocking `404` in titles with a minimum description
length of 5. -/
def filters404 : Filters := ⟨[], [], 5, ["404"], []⟩

/-- C7: the validator accepts a record exactly when the description
meets the minimum length and no blocked keyword occurs
(case-insensitively) in title or description; in particular a record
titled `Widget 404 Not Found` is rejected whenever `404` is a blocked
title keyword, regardless of its description. -/
theorem isValidProduct_spec (product : ProductData) (filters : Filters) :
    (isValidProduct product filters = true ↔
      (filters.minDescriptionLength ≤ product.description.length ∧
       (∀ kw ∈ filters.invalidTitleKeywords,
          containsStr (jsToLower product.title) (jsToLower kw) = false) ∧
       (∀ kw ∈ filters.invalidDescriptionKeywords,
          containsStr (jsToLower product.description) (jsToLower kw) = false))) ∧
    (product.title = "Widget 404 Not Found" → "404" ∈ filters.invalidTitleKeywords →
      isValidProduct product filters = false) := by
  constructor
  · simp only [isValidProduct]
    split_ifs with h1 h2 h3
    · simp only [false_iff]
      rintro ⟨hlen, -, -⟩
      omega
    · simp only [false_iff]
      rintro ⟨-, ht, -⟩
      rcases List.any_eq_true.mp h2 with ⟨kw, hkw, hck⟩
      rw [ht kw hkw] at hck
      exact Bool.false_ne_true hck
    · simp only [false_iff]
      rintro ⟨-, -, hd⟩
      rcases List.any_eq_true.mp h3 with ⟨kw, hkw, hck⟩
      rw [hd kw hkw] at hck
      exact Bool.false_ne_true hck
    · simp only [true_iff]
      refine ⟨by omega, fun kw hkw => ?_, fun kw hkw => ?_⟩
      · cases hb : containsStr (jsToLower product.title) (jsToLower kw) with
        | false => rfl
        | true => exact absurd (List.any_eq_true.mpr ⟨kw, hkw, hb⟩) h2
      · cases hb : containsStr (jsToLower product.description) (jsToLower kw) with
        | false => rfl
        | true => exact absurd (List.any_eq_true.mpr ⟨kw, hkw, hb⟩) h3
  · intro htitle hkw
    by_cases hlen : product.description.length < filters.minDescriptionLength
    · simp only [isValidProduct, hlen, if_pos]
    · have hany : filters.invalidTitleKeywords.any
          (fun keyword => containsStr (jsToLower product.title) (jsToLower keyword))
            = true :=
        List.any_eq_true.mpr ⟨"404", hkw, by rw [htitle]; decide⟩
      simp only [isValidProduct, hlen, hany, if_neg, if_pos, if_false]

/-- C7 witness: the `Widget 404 Not Found` record is rejected although
its description passes the length check. -/
theorem isValidProduct_spec_witness :
    isValidProduct product404 filters404 = false ∧
    filters404.minDescriptionLength ≤ product404.description.length :=
  ⟨(isValidProduct_spec product404 filters404).2 rfl (by decide), by decide⟩

/-! ## C5: title resolution during discovery -/

/-- The text the source's title-selector loop looks at for one entry:
the entry's match inside the element when the selector matches, the
element's own text otherwise, trimmed. -/
def consideredTitleText (e : LinkElem) (sel : String) : String :=
  jsTrim ((e.titleQuery sel).getD e.ownText)

theorem titleFromSelectors_eq_find (e : LinkElem) (tss : List String) :
    titleFromSelectors e tss
      = (tss.map (consideredTitleText e)).find? (fun t => t != "") := by
  induction tss with
  | nil => rfl
  | cons sel rest ih =>
    simp only [titleFromSelectors, List.map_cons]
    by_cases h : consideredTitleText e sel = ""
    · rw [if_neg (fun hne => hne h), List.find?_cons_of_neg _ (by simp [h]), ih]
    · have h' : jsTrim ((e.titleQuery sel).getD e.ownText) ≠ "" := h
      rw [if_pos h', List.find?_cons_of_pos _ (by simp [h])]
      rfl

/-- Link element for the title counterexample: its own text is `Raw`,
the selector `h3` matches nothing inside it, and `span` matches an
inner element with text `Widget`. -/
def cexElem5 : LinkElem :=
  ⟨"http://x/p", "Raw", none, none,
   fun sel => if sel == "span" then some "Widget" else none⟩

/-- C5, counterexample: with title selectors `[h3, span]` the source
resolves the title to the element's own text `Raw` at the first entry
(whose selector matches nothing), while the claimed rule — first
non-empty trimmed text among the entries that match — yields `Widget`. -/
theorem resolveTitle_per_selector_fallback_cex :
    resolveTitle ["h3", "span"] cexElem5 0 = "Raw" ∧
    specTitleFromSelectors cexElem5 ["h3", "span"] = some "Widget" ∧
    ("Raw" : String) ≠ "Widget" :=
  ⟨by decide, by decide, by decide⟩

/-- C5 (amended): for each title-selector entry in order, the text
considered is the entry's match when the entry matches and the
element's own text otherwise; the resolved title is the first non-empty
such text — the attribute/placeholder fallback chain applies only when
every considered text is empty — with whitespace runs collapsed and the
result trimmed. -/
theorem resolveTitle_characterization (titleSelectors : List String)
    (e : LinkElem) (n : Nat) :
    resolveTitle titleSelectors e n
      = jsTrim (collapseWs
          (((titleSelectors.map (consideredTitleText e)).find? (fun t => t != "")).getD
            (fallbackTitle e n))) ∧
    titleFromSelectors e titleSelectors
      = (titleSelectors.map (consideredTitleText e)).find? (fun t => t != "") :=
  ⟨by rw [resolveTitle, titleFromSelectors_eq_find], titleFromSelectors_eq_find e _⟩

/-! ## C4: link-selector preemption -/

/-- A link element whose URL matches the skip filter. -/
def elemSkip4 : LinkElem := ⟨"http://x/skipme", "Alpha", none, none, fun _ => none⟩

/-- A link element whose URL passes the filters. -/
def elemOk4 : LinkElem := ⟨"http://x/ok", "Beta", none, none, fun _ => none⟩

/-- Listing page where the first link selector matches only the
filtered-out element and the second matches the good one. -/
def cexPage4 : ListingPage :=
  ⟨fun sel => if sel == "a.first" then [elemSkip4]
    else if sel == "a.second" then [elemOk4] else []⟩

/-- Configuration with two link selectors and a skip filter that
rejects every match of the first. -/
def cexConfig4 : ScraperConfig :=
  { baseConfig with
    productSelectors := { baseSelectors with linkSelectors := ["a.first", "a.second"] }
    filters := { baseFilters with skipUrls := ["skipme"] } }

/-- C4, counterexample: the first link selector has a structural match,
yet after its only match is rejected by the URL filters the result
contains a candidate from the second selector — structural matching
does not preempt later selectors, surviving the filters does. -/
theorem extractProductLinks_preemption_cex :
    extractProductLinks cexConfig4 cexPage4 = [⟨"http://x/ok", "Beta"⟩] ∧
    (cexPage4.queryLinks "a.first").map LinkElem.href = ["http://x/skipme"] ∧
    ¬ ("http://x/ok" ∈ (cexPage4.queryLinks "a.first").map LinkElem.href) :=
  ⟨by decide, by decide, by decide⟩

theorem linksLoop_skip_empty (config : ScraperConfig) (page : ListingPage)
    (pre rest : List String)
    (hpre : ∀ s ∈ pre, linksForSelector config page s = []) :
    linksLoop config page (pre ++ rest) = linksLoop config page rest := by
  induction pre with
  | nil => rfl
  | cons s pre' ih =>
    have hs : linksForSelector config page s = [] :=
      hpre s (List.mem_cons_self s pre')
    rw [List.cons_append]
    show (let links := linksForSelector config page s
      if links.length > 0 then links else linksLoop config page (pre' ++ rest))
        = linksLoop config page rest
    rw [hs]
    exact ih (fun t ht => hpre t (List.mem_cons_of_mem _ ht))

/-- C4 (amended): link discovery uses the accepted-candidate set of the
first `linkSelectors` entry whose matches survive the URL filters and
the URL/title non-emptiness checks; entries whose matches are all
rejected do not preempt later entries, and when every entry's matches
are rejected the result is empty. -/
theorem extractProductLinks_first_accepted (config : ScraperConfig) (page : ListingPage) :
    (∀ pre sel post,
      config.productSelectors.linkSelectors = pre ++ sel :: post →
      (∀ s ∈ pre, linksForSelector config page s = []) →
      linksForSelector config page sel ≠ [] →
      extractProductLinks config page = dedupeByUrl (linksForSelector config page sel)) ∧
    ((∀ s ∈ config.productSelectors.linkSelectors, linksForSelector config page s = []) →
      extractProductLinks config page = []) := by
  constructor
  · intro pre sel post hsel hpre hne
    rw [extractProductLinks, hsel, linksLoop_skip_empty config page pre _ hpre]
    show dedupeByUrl
      (let links := linksForSelector config page sel
       if links.length > 0 then links else linksLoop config page post) = _
    rw [if_pos (List.length_pos.mpr hne)]
  · intro hall
    rw [extractProductLinks, ← List.append_nil config.productSelectors.linkSelectors,
      linksLoop_skip_empty config page _ [] hall]
    rfl

/-- C4 witness: on the counterexample page the result is exactly the
deduplicated accepted candidates of the second selector. -/
theorem extractProductLinks_first_accepted_witness :
    extractProductLinks cexConfig4 cexPage4
      = dedupeByUrl (linksForSelector cexConfig4 cexPage4 "a.second") :=
  (extractProductLinks_first_accepted cexConfig4 cexPage4).1 ["a.first"] "a.second" []
    rfl (by decide) (by decide)

/-! ## Step lemmas for the crawl loop -/

theorem scrapeLoop_halt (env : Env) (config : ScraperConfig) (stealth : Bool)
    (rng : Nat → Nat) (maxPages fuel page empty k : Nat)
    (h : ¬(page ≤ maxPages ∧ empty < 2)) :
    scrapeLoop env config stealth rng maxPages fuel page empty k
      = ⟨[], [], [], [], page, empty⟩ := by
  cases fuel with
  | zero => rfl
  | succ fuel => rw [scrapeLoop, if_neg h]

theorem scrapeLoop_step_fail (env : Env) (config : ScraperConfig) (stealth : Bool)
    (rng : Nat → Nat) (maxPages fuel page empty k : Nat)
    (hc : page ≤ maxPages ∧ empty < 2)
    (hgl : getProductLinksFromPage env config page = none) :
    ∃ k', let cont := scrapeLoop env config stealth rng maxPages fuel (page + 1) (empty + 1) k'
      (scrapeLoop env config stealth rng maxPages (fuel + 1) page empty k).products
          = cont.products ∧
      (scrapeLoop env config stealth rng maxPages (fuel + 1) page empty k).visited
          = (page, empty) :: cont.visited ∧
      (scrapeLoop env config stealth rng maxPages (fuel + 1) page empty k).productVisits
          = cont.productVisits ∧
      (scrapeLoop env config stealth rng maxPages (fuel + 1) page empty k).finalPage
          = cont.finalPage ∧
      (scrapeLoop env config stealth rng maxPages (fuel + 1) page empty k).finalEmpty
          = cont.finalEmpty := by
  refine ⟨(simulateHumanBehavior stealth rng k "browsing").2, ?_⟩
  rw [scrapeLoop, if_pos hc, hgl]
  exact ⟨rfl, rfl, rfl, rfl, rfl⟩

theorem scrapeLoop_step_noCandidates (env : Env) (config : ScraperConfig) (stealth : Bool)
    (rng : Nat → Nat) (maxPages fuel page empty k : Nat)
    (hc : page ≤ maxPages ∧ empty < 2)
    (hgl : getProductLinksFromPage env config page = some []) :
    ∃ k', let cont := scrapeLoop env config stealth rng maxPages fuel (page + 1) (empty + 1) k'
      (scrapeLoop env config stealth rng maxPages (fuel + 1) page empty k).products
          = cont.products ∧
      (scrapeLoop env config stealth rng maxPages (fuel + 1) page empty k).visited
          = (page, empty) :: cont.visited ∧
      (scrapeLoop env config stealth rng maxPages (fuel + 1) page empty k).productVisits
          = cont.productVisits ∧
      (scrapeLoop env config stealth rng maxPages (fuel + 1) page empty k).finalPage
          = cont.finalPage ∧
      (scrapeLoop env config stealth rng maxPages (fuel + 1) page empty k).finalEmpty
          = cont.finalEmpty := by
  refine ⟨(if page + 1 ≤ maxPages ∧ empty + 1 < 2
    then randomDelay stealth rng (simulateHumanBehavior stealth rng k "browsing").2 5000 10000
    else ([], (simulateHumanBehavior stealth rng k "browsing").2)).2, ?_⟩
  rw [scrapeLoop, if_pos hc, hgl]
  exact ⟨rfl, rfl, rfl, rfl, rfl⟩

theorem scrapeLoop_step_threw (env : Env) (config : ScraperConfig) (stealth : Bool)
    (rng : Nat → Nat) (maxPages fuel page empty k : Nat) (links : List Candidate)
    (hc : page ≤ maxPages ∧ empty < 2)
    (hgl : getProductLinksFromPage env config page = some links)
    (hne : links ≠ [])
    (hthrew : (processProducts env config stealth rng links
      (simulateHumanBehavior stealth rng k "browsing").2).threw = true) :
    ∃ k',
      let out := processProducts env config stealth rng links
        (simulateHumanBehavior stealth rng k "browsing").2
      let cont := scrapeLoop env config stealth rng maxPages fuel (page + 1) 1 k'
      (scrapeLoop env config stealth rng maxPages (fuel + 1) page empty k).products
          = out.products ++ cont.products ∧
      (scrapeLoop env config stealth rng maxPages (fuel + 1) page empty k).visited
          = (page, empty) :: cont.visited ∧
      (scrapeLoop env config stealth rng maxPages (fuel + 1) page empty k).productVisits
          = out.productVisits ++ cont.productVisits ∧
      (scrapeLoop env config stealth rng maxPages (fuel + 1) page empty k).finalPage
          = cont.finalPage ∧
      (scrapeLoop env config stealth rng maxPages (fuel + 1) page empty k).finalEmpty
          = cont.finalEmpty := by
  refine ⟨(processProducts env config stealth rng links
    (simulateHumanBehavior stealth rng k "browsing").2).rngIdx, ?_⟩
  rw [scrapeLoop, if_pos hc, hgl]
  intro out cont
  dsimp only
  rw [if_neg hne, if_pos hthrew]
  exact ⟨rfl, rfl, rfl, rfl, rfl⟩

theorem scrapeLoop_step_ok (env : Env) (config : ScraperConfig) (stealth : Bool)
    (rng : Nat → Nat) (maxPages fuel page empty k : Nat) (links : List Candidate)
    (hc : page ≤ maxPages ∧ empty < 2)
    (hgl : getProductLinksFromPage env config page = some links)
    (hne : links ≠ [])
    (hthrew : (processProducts env config stealth rng links
      (simulateHumanBehavior stealth rng k "browsing").2).threw = false) :
    ∃ k',
      let out := processProducts env config stealth rng links
        (simulateHumanBehavior stealth rng k "browsing").2
      let cont := scrapeLoop env config stealth rng maxPages fuel (page + 1) 0 k'
      (scrapeLoop env config stealth rng maxPages (fuel + 1) page empty k).products
          = out.products ++ cont.products ∧
      (scrapeLoop env config stealth rng maxPages (fuel + 1) page empty k).visited
          = (page, empty) :: cont.visited ∧
      (scrapeLoop env config stealth rng maxPages (fuel + 1) page empty k).productVisits
          = out.productVisits ++ cont.productVisits ∧
      (scrapeLoop env config stealth rng maxPages (fuel + 1) page empty k).finalPage
          = cont.finalPage ∧
      (scrapeLoop env config stealth rng maxPages (fuel + 1) page empty k).finalEmpty
          = cont.finalEmpty := by
  refine ⟨(if page + 1 ≤ maxPages ∧ (0 : Nat) < 2
    then randomDelay stealth rng (processProducts env config stealth rng links
      (simulateHumanBehavior stealth rng k "browsing").2).rngIdx 5000 10000
    else ([], (processProducts env config stealth rng links
      (simulateHumanBehavior stealth rng k "browsing").2).rngIdx)).2, ?_⟩
  rw [scrapeLoop, if_pos hc, hgl]
  intro out cont
  dsimp only
  rw [if_neg hne, if_neg (by rw [hthrew]; exact Bool.false_ne_true)]
  exact ⟨rfl, rfl, rfl, rfl, rfl⟩

theorem processProducts_cons_ok (env : Env) (config : ScraperConfig) (stealth : Bool)
    (rng : Nat → Nat) (link : Candidate) (rest : List Candidate) (k : Nat)
    (hnav : env.productNav link.url = true) :
    ∃ k2, let tail := processProducts env config stealth rng rest k2
      (processProducts env config stealth rng (link :: rest) k).products
        = (match extractProductChecked (env.productDoc link.url) link.url link.title config with
           | some p => p :: tail.products
           | none => tail.products) ∧
      (processProducts env config stealth rng (link :: rest) k).productVisits
        = link.url :: tail.productVisits ∧
      (processProducts env config stealth rng (link :: rest) k).threw = tail.threw := by
  refine ⟨(if rest ≠ []
    then randomDelay stealth rng (simulateHumanBehavior stealth rng k "reading").2 2000 5000
    else ([], (simulateHumanBehavior stealth rng k "reading").2)).2, ?_⟩
  rw [processProducts, if_pos hnav]
  exact ⟨rfl, rfl, rfl⟩

theorem processProducts_cons_fail (env : Env) (config : ScraperConfig) (stealth : Bool)
    (rng : Nat → Nat) (link : Candidate) (rest : List Candidate) (k : Nat)
    (hnav : env.productNav link.url = false) :
    processProducts env config stealth rng (link :: rest) k = ⟨[], [link.url], [], k, true⟩ := by
  rw [processProducts, if_neg (by rw [hnav]; exact Bool.false_ne_true)]

theorem processProducts_nav_failure (env : Env) (config : ScraperConfig) (stealth : Bool)
    (rng : Nat → Nat) :
    ∀ (pre : List Candidate) (bad : Candidate) (post : List Candidate) (k : Nat),
      (∀ c ∈ pre, env.productNav c.url = true) →
      env.productNav bad.url = false →
      (processProducts env config stealth rng (pre ++ bad :: post) k).threw = true ∧
      (processProducts env config stealth rng (pre ++ bad :: post) k).productVisits
        = pre.map Candidate.url ++ [bad.url] ∧
      (processProducts env config stealth rng (pre ++ bad :: post) k).products
        = pre.filterMap
            (fun c => extractProductChecked (env.productDoc c.url) c.url c.title config) := by
  intro pre
  induction pre with
  | nil =>
    intro bad post k _ hbad
    rw [List.nil_append, processProducts_cons_fail env config stealth rng bad post k hbad]
    exact ⟨rfl, rfl, rfl⟩
  | cons c pre' ih =>
    intro bad post k hpre hbad
    have hc : env.productNav c.url = true := hpre c (List.mem_cons_self _ _)
    rw [List.cons_append]
    obtain ⟨k2, hstep⟩ :=
      processProducts_cons_ok env config stealth rng c (pre' ++ bad :: post) k hc
    obtain ⟨ht, hv, hp⟩ :=
      ih bad post k2 (fun d hd => hpre d (List.mem_cons_of_mem _ hd)) hbad
    refine ⟨?_, ?_, ?_⟩
    · rw [hstep.2.2, ht]
    · rw [hstep.2.1, hv, List.map_cons, List.cons_append]
    · rw [hstep.1, List.filterMap_cons]
      cases hext : extractProductChecked (env.productDoc c.url) c.url c.title config with
      | none => rw [hp]
      | some p => rw [hp]

/-! ## C2: product navigation failure -/

/-- Listing element pointing at the first product. -/
def elemU1 : LinkElem := ⟨"http://x/u1", "Alpha", none, none, fun _ => none⟩

/-- Listing element pointing at the second product. -/
def elemU2 : LinkElem := ⟨"http://x/u2", "Beta", none, none, fun _ => none⟩

/-- Listing page with two candidates behind the selector `a`. -/
def listing2 : ListingPage :=
  ⟨fun sel => if sel == "a" then [elemU1, elemU2] else []⟩

/-- Configuration discovering both candidates through selector `a`. -/
def cexConfig2 : ScraperConfig :=
  { baseConfig with
    productSelectors := { baseSelectors with linkSelectors := ["a"] } }

/-- Environment where listing navigation always succeeds and product
navigation fails exactly on the first candidate's URL. -/
def cexEnv2 : Env :=
  ⟨fun _ _ => true, fun _ => listing2,
   fun u => u != "http://x/u1", fun _ => emptyDoc⟩

/-- C2, counterexample: page 1 discovers two candidates; navigation to
the first fails; the second candidate — although it would have produced
an accepted record — is never navigated to, so a single failed product
navigation drops the rest of the page, not just the failing candidate.
The page-level handler counts the page toward the empty streak and the
crawl moves on. -/
theorem product_nav_abort_cex :
    extractProductLinks cexConfig2 listing2
      = [⟨"http://x/u1", "Alpha"⟩, ⟨"http://x/u2", "Beta"⟩] ∧
    cexEnv2.productNav "http://x/u1" = false ∧
    extractProductChecked (cexEnv2.productDoc "http://x/u2") "http://x/u2" "Beta"
      cexConfig2 ≠ none ∧
    (scrapeProducts cexEnv2 cexConfig2 false (fun _ => 0) 1).productVisits
      = ["http://x/u1"] ∧
    ¬("http://x/u2" ∈ (scrapeProducts cexEnv2 cexConfig2 false (fun _ => 0) 1).productVisits) ∧
    (scrapeProducts cexEnv2 cexConfig2 false (fun _ => 0) 1).products = [] ∧
    (scrapeProducts cexEnv2 cexConfig2 false (fun _ => 0) 1).finalEmpty = 1 :=
  ⟨by decide, by decide, by decide, by decide, by decide, by decide, by decide⟩

/-- C2 (amended): when navigation to one candidate fails, that
candidate and every later candidate of the page produce no record and
are not navigated to, while records accepted earlier on the page are
kept; the page-level handler catches the error, so the crawl itself is
not aborted: it continues with the next page at empty streak 1. -/
theorem product_nav_failure_skips_rest (env : Env) (config : ScraperConfig)
    (stealth : Bool) (rng : Nat → Nat) :
    (∀ (pre : List Candidate) (bad : Candidate) (post : List Candidate) (k : Nat),
      (∀ c ∈ pre, env.productNav c.url = true) →
      env.productNav bad.url = false →
      (processProducts env config stealth rng (pre ++ bad :: post) k).threw = true ∧
      (processProducts env config stealth rng (pre ++ bad :: post) k).productVisits
        = pre.map Candidate.url ++ [bad.url] ∧
      (processProducts env config stealth rng (pre ++ bad :: post) k).products
        = pre.filterMap
            (fun c => extractProductChecked (env.productDoc c.url) c.url c.title config)) ∧
    (∀ maxPages fuel page empty k links, page ≤ maxPages → empty < 2 →
      getProductLinksFromPage env config page = some links → links ≠ [] →
      (processProducts env config stealth rng links
        (simulateHumanBehavior stealth rng k "browsing").2).threw = true →
      ∃ k',
        let out := processProducts env config stealth rng links
          (simulateHumanBehavior stealth rng k "browsing").2
        let cont := scrapeLoop env config stealth rng maxPages fuel (page + 1) 1 k'
        (scrapeLoop env config stealth rng maxPages (fuel + 1) page empty k).products
            = out.products ++ cont.products ∧
        (scrapeLoop env config stealth rng maxPages (fuel + 1) page empty k).visited
            = (page, empty) :: cont.visited ∧
        (scrapeLoop env config stealth rng maxPages (fuel + 1) page empty k).productVisits
            = out.productVisits ++ cont.productVisits ∧
        (scrapeLoop env config stealth rng maxPages (fuel + 1) page empty k).finalPage
            = cont.finalPage ∧
        (scrapeLoop env config stealth rng maxPages (fuel + 1) page empty k).finalEmpty
            = cont.finalEmpty) :=
  ⟨processProducts_nav_failure env config stealth rng,
   fun maxPages fuel page empty k links hp he hgl hne hthrew =>
     scrapeLoop_step_threw env config stealth rng maxPages fuel page empty k links
       ⟨hp, he⟩ hgl hne hthrew⟩

/-- C2 witness: the amended behavior evaluated on the concrete
two-candidate environment. -/
theorem product_nav_failure_skips_rest_witness :
    (processProducts cexEnv2 cexConfig2 false (fun _ => 0)
      ([] ++ (⟨"http://x/u1", "Alpha"⟩ : Candidate) :: [⟨"http://x/u2", "Beta"⟩]) 0).threw
        = true ∧
    (processProducts cexEnv2 cexConfig2 false (fun _ => 0)
      ([] ++ (⟨"http://x/u1", "Alpha"⟩ : Candidate) :: [⟨"http://x/u2", "Beta"⟩]) 0).productVisits
        = List.map Candidate.url ([] : List Candidate) ++ ["http://x/u1"] ∧
    (processProducts cexEnv2 cexConfig2 false (fun _ => 0)
      ([] ++ (⟨"http://x/u1", "Alpha"⟩ : Candidate) :: [⟨"http://x/u2", "Beta"⟩]) 0).products
        = List.filterMap
            (fun c => extractProductChecked (cexEnv2.productDoc c.url) c.url c.title cexConfig2)
            ([] : List Candidate) :=
  (product_nav_failure_skips_rest cexEnv2 cexConfig2 false (fun _ => 0)).1
    [] ⟨"http://x/u1", "Alpha"⟩ [⟨"http://x/u2", "Beta"⟩] 0
    (fun c hc => absurd hc (List.not_mem_nil c)) (by decide)

/-! ## C3: loop guard, streak bookkeeping and the two-empty-pages stop -/

theorem visited_conditions (env : Env) (config : ScraperConfig) (stealth : Bool)
    (rng : Nat → Nat) (maxPages : Nat) :
    ∀ fuel page empty k p s,
      (p, s) ∈ (scrapeLoop env config stealth rng maxPages fuel page empty k).visited →
      p ≤ maxPages ∧ s < 2 := by
  intro fuel
  induction fuel with
  | zero =>
    intro page empty k p s h
    simp [scrapeLoop] at h
  | succ fuel ih =>
    intro page empty k p s h
    by_cases hc : page ≤ maxPages ∧ empty < 2
    · cases hgl : getProductLinksFromPage env config page with
      | none =>
        obtain ⟨k', h1⟩ :=
          scrapeLoop_step_fail env config stealth rng maxPages fuel page empty k hc hgl
        rw [h1.2.1] at h
        rcases List.mem_cons.mp h with heq | hmem
        · rw [Prod.mk.injEq] at heq
          obtain ⟨rfl, rfl⟩ := heq
          exact hc
        · exact ih (page + 1) (empty + 1) k' p s hmem
      | some links =>
        by_cases hne : links = []
        · subst hne
          obtain ⟨k', h1⟩ :=
            scrapeLoop_step_noCandidates env config stealth rng maxPages fuel page empty k hc hgl
          rw [h1.2.1] at h
          rcases List.mem_cons.mp h with heq | hmem
          · rw [Prod.mk.injEq] at heq
            obtain ⟨rfl, rfl⟩ := heq
            exact hc
          · exact ih (page + 1) (empty + 1) k' p s hmem
        · cases hthrew : (processProducts env config stealth rng links
            (simulateHumanBehavior stealth rng k "browsing").2).threw with
          | true =>
            obtain ⟨k', h1⟩ :=
              scrapeLoop_step_threw env config stealth rng maxPages fuel page empty k links
                hc hgl hne hthrew
            rw [h1.2.1] at h
            rcases List.mem_cons.mp h with heq | hmem
            · rw [Prod.mk.injEq] at heq
              obtain ⟨rfl, rfl⟩ := heq
              exact hc
            · exact ih (page + 1) 1 k' p s hmem
          | false =>
            obtain ⟨k', h1⟩ :=
              scrapeLoop_step_ok env config stealth rng maxPages fuel page empty k links
                hc hgl hne hthrew
            rw [h1.2.1] at h
            rcases List.mem_cons.mp h with heq | hmem
            · rw [Prod.mk.injEq] at heq
              obtain ⟨rfl, rfl⟩ := heq
              exact hc
            · exact ih (page + 1) 0 k' p s hmem
    · rw [scrapeLoop_halt env config stealth rng maxPages (fuel + 1) page empty k hc] at h
      simp at h

/-- C3: the loop body runs for a page only when the page bound and the
empty-streak bound both hold; a page with zero candidates increments
the streak and advances the page; a page with candidates (whose
processing completes) resets the streak to 0; and when pages 1 and 2
both yield zero candidates with `maxPages = 5`, the crawl visits
exactly pages 1 and 2 and halts with final page 3 and streak 2. -/
theorem crawl_stop_conditions (env : Env) (config : ScraperConfig) (stealth : Bool)
    (rng : Nat → Nat) :
    (∀ maxPages p s,
      (p, s) ∈ (scrapeProducts env config stealth rng maxPages).visited →
      p ≤ maxPages ∧ s < 2) ∧
    (∀ maxPages fuel page empty k, page ≤ maxPages → empty < 2 →
      getProductLinksFromPage env config page = some [] →
      ∃ k', let cont := scrapeLoop env config stealth rng maxPages fuel (page + 1) (empty + 1) k'
        (scrapeLoop env config stealth rng maxPages (fuel + 1) page empty k).visited
            = (page, empty) :: cont.visited ∧
        (scrapeLoop env config stealth rng maxPages (fuel + 1) page empty k).products
            = cont.products) ∧
    (∀ maxPages fuel page empty k links, page ≤ maxPages → empty < 2 →
      getProductLinksFromPage env config page = some links → links ≠ [] →
      (processProducts env config stealth rng links
        (simulateHumanBehavior stealth rng k "browsing").2).threw = false →
      ∃ k',
        let out := processProducts env config stealth rng links
          (simulateHumanBehavior stealth rng k "browsing").2
        let cont := scrapeLoop env config stealth rng maxPages fuel (page + 1) 0 k'
        (scrapeLoop env config stealth rng maxPages (fuel + 1) page empty k).visited
            = (page, empty) :: cont.visited ∧
        (scrapeLoop env config stealth rng maxPages (fuel + 1) page empty k).products
            = out.products ++ cont.products) ∧
    (getProductLinksFromPage env config 1 = some [] →
     getProductLinksFromPage env config 2 = some [] →
     (scrapeProducts env config stealth rng 5).visited = [(1, 0), (2, 1)] ∧
     (scrapeProducts env config stealth rng 5).finalPage = 3 ∧
     (scrapeProducts env config stealth rng 5).finalEmpty = 2 ∧
     (scrapeProducts env config stealth rng 5).products = []) := by
  refine ⟨?_, ?_, ?_, ?_⟩
  · intro maxPages p s h
    exact visited_conditions env config stealth rng maxPages (maxPages + 1) 1 0 0 p s h
  · intro maxPages fuel page empty k hp he hgl
    obtain ⟨k', h1⟩ :=
      scrapeLoop_step_noCandidates env config stealth rng maxPages fuel page empty k ⟨hp, he⟩ hgl
    exact ⟨k', h1.2.1, h1.1⟩
  · intro maxPages fuel page empty k links hp he hgl hne hthrew
    obtain ⟨k', h1⟩ :=
      scrapeLoop_step_ok env config stealth rng maxPages fuel page empty k links
        ⟨hp, he⟩ hgl hne hthrew
    exact ⟨k', h1.2.1, h1.1⟩
  · intro h1 h2
    have e0 : scrapeProducts env config stealth rng 5
        = scrapeLoop env config stealth rng 5 (4 + 1 + 1) 1 0 0 := rfl
    obtain ⟨k1, s1⟩ :=
      scrapeLoop_step_noCandidates env config stealth rng 5 (4 + 1) 1 0 0 (by omega) h1
    obtain ⟨k2, s2⟩ :=
      scrapeLoop_step_noCandidates env config stealth rng 5 4 2 1 k1 (by omega) h2
    have hh : scrapeLoop env config stealth rng 5 4 3 2 k2 = ⟨[], [], [], [], 3, 2⟩ :=
      scrapeLoop_halt env config stealth rng 5 4 3 2 k2 (by omega)
    refine ⟨?_, ?_, ?_, ?_⟩
    · rw [e0, s1.2.1, s2.2.1, hh]
    · rw [e0, s1.2.2.2.1, s2.2.2.2.1, hh]
    · rw [e0, s1.2.2.2.2, s2.2.2.2.2, hh]
    · rw [e0, s1.1, s2.1, hh]

/-- Environment whose listing pages all render but contain nothing. -/
def envEmpty : Env :=
  ⟨fun _ _ => true, fun _ => ⟨fun _ => []⟩, fun _ => true, fun _ => emptyDoc⟩

/-- C3 witness: the stop scenario evaluated on an environment whose
pages are all empty. -/
theorem crawl_stop_conditions_witness :
    (scrapeProducts envEmpty baseConfig false (fun _ => 0) 5).visited = [(1, 0), (2, 1)] ∧
    (scrapeProducts envEmpty baseConfig false (fun _ => 0) 5).finalPage = 3 ∧
    (scrapeProducts envEmpty baseConfig false (fun _ => 0) 5).finalEmpty = 2 ∧
    (scrapeProducts envEmpty baseConfig false (fun _ => 0) 5).products = [] :=
  (crawl_stop_conditions envEmpty baseConfig false (fun _ => 0)).2.2.2
    (by decide) (by decide)

/-! ## C8: listing navigation retries exhausted -/

theorem navGo_all_fail (attempts : Nat → Bool) (hfail : ∀ i, attempts i = false) :
    ∀ fuel retries, 1 ≤ fuel → navGo attempts retries fuel = false := by
  intro fuel
  induction fuel with
  | zero => intro r h; omega
  | succ fuel ih =>
    intro r _
    rw [navGo, if_neg (by rw [hfail r]; exact Bool.false_ne_true)]
    by_cases hf : fuel = 0
    · rw [if_pos hf]
    · rw [if_neg hf]
      exact ih (r + 1) (by omega)

/-- C8: when every navigation attempt for a listing page fails and at
least one retry is allowed, discovery for that page reports a failure,
and the crawl treats the page exactly like a zero-candidate page: the
streak is incremented, the page advances, no products or product
visits are added, and the crawl continues with the next page. -/
theorem listing_nav_retry_degrade (env : Env) (config : ScraperConfig) (stealth : Bool)
    (rng : Nat → Nat) (page : Nat)
    (hret : 1 ≤ config.navigation.maxRetries)
    (hfail : ∀ i, env.listingAttempts page i = false) :
    getProductLinksFromPage env config page = none ∧
    (∀ maxPages fuel empty k, page ≤ maxPages → empty < 2 →
      ∃ k', let cont := scrapeLoop env config stealth rng maxPages fuel (page + 1) (empty + 1) k'
        (scrapeLoop env config stealth rng maxPages (fuel + 1) page empty k).products
            = cont.products ∧
        (scrapeLoop env config stealth rng maxPages (fuel + 1) page empty k).visited
            = (page, empty) :: cont.visited ∧
        (scrapeLoop env config stealth rng maxPages (fuel + 1) page empty k).productVisits
            = cont.productVisits ∧
        (scrapeLoop env config stealth rng maxPages (fuel + 1) page empty k).finalPage
            = cont.finalPage ∧
        (scrapeLoop env config stealth rng maxPages (fuel + 1) page empty k).finalEmpty
            = cont.finalEmpty) := by
  have hnav : navigateToPage config.navigation.maxRetries (env.listingAttempts page) = false :=
    navGo_all_fail (env.listingAttempts page) hfail config.navigation.maxRetries 0 hret
  have hgl : getProductLinksFromPage env config page = none := by
    rw [getProductLinksFromPage, if_neg (by rw [hnav]; exact Bool.false_ne_true)]
  exact ⟨hgl, fun maxPages fuel empty k hp he =>
    scrapeLoop_step_fail env config stealth rng maxPages fuel page empty k ⟨hp, he⟩ hgl⟩

/-- Environment whose listing navigation attempts always fail. -/
def envNavFail : Env :=
  ⟨fun _ _ => false, fun _ => ⟨fun _ => []⟩, fun _ => true, fun _ => emptyDoc⟩

/-- C8 witness: with three allowed retries all failing, page 1 reports
a navigation failure to the controller. -/
theorem listing_nav_retry_degrade_witness :
    getProductLinksFromPage envNavFail baseConfig 1 = none :=
  (listing_nav_retry_degrade envNavFail baseConfig false (fun _ => 0) 1
    (by decide) (fun _ => rfl)).1

/-! ## C9: pacing mode does not influence the extracted records -/

theorem processProducts_pacing_independent (env : Env) (config : ScraperConfig)
    (s1 s2 : Bool) (rng1 rng2 : Nat → Nat) :
    ∀ (links : List Candidate) (k1 k2 : Nat),
      (processProducts env config s1 rng1 links k1).products
        = (processProducts env config s2 rng2 links k2).products ∧
      (processProducts env config s1 rng1 links k1).productVisits
        = (processProducts env config s2 rng2 links k2).productVisits ∧
      (processProducts env config s1 rng1 links k1).threw
        = (processProducts env config s2 rng2 links k2).threw := by
  intro links
  induction links with
  | nil => intro k1 k2; exact ⟨rfl, rfl, rfl⟩
  | cons link rest ih =>
    intro k1 k2
    cases hnav : env.productNav link.url with
    | false =>
      rw [processProducts_cons_fail env config s1 rng1 link rest k1 hnav,
        processProducts_cons_fail env config s2 rng2 link rest k2 hnav]
      exact ⟨rfl, rfl, rfl⟩
    | true =>
      obtain ⟨ka, h1⟩ := processProducts_cons_ok env config s1 rng1 link rest k1 hnav
      obtain ⟨kb, h2⟩ := processProducts_cons_ok env config s2 rng2 link rest k2 hnav
      obtain ⟨hp, hv, ht⟩ := ih ka kb
      refine ⟨?_, ?_, ?_⟩
      · rw [h1.1, h2.1, hp]
      · rw [h1.2.1, h2.2.1, hv]
      · rw [h1.2.2, h2.2.2, ht]

theorem scrapeLoop_pacing_independent (env : Env) (config : ScraperConfig)
    (maxPages : Nat) (s1 s2 : Bool) (rng1 rng2 : Nat → Nat) :
    ∀ (fuel page empty k1 k2 : Nat),
      (scrapeLoop env config s1 rng1 maxPages fuel page empty k1).products
        = (scrapeLoop env config s2 rng2 maxPages fuel page empty k2).products ∧
      (scrapeLoop env config s1 rng1 maxPages fuel page empty k1).visited
        = (scrapeLoop env config s2 rng2 maxPages fuel page empty k2).visited ∧
      (scrapeLoop env config s1 rng1 maxPages fuel page empty k1).productVisits
        = (scrapeLoop env config s2 rng2 maxPages fuel page empty k2).productVisits ∧
      (scrapeLoop env config s1 rng1 maxPages fuel page empty k1).finalPage
        = (scrapeLoop env config s2 rng2 maxPages fuel page empty k2).finalPage ∧
      (scrapeLoop env config s1 rng1 maxPages fuel page empty k1).finalEmpty
        = (scrapeLoop env config s2 rng2 maxPages fuel page empty k2).finalEmpty := by
  intro fuel
  induction fuel with
  | zero => intro page empty k1 k2; exact ⟨rfl, rfl, rfl, rfl, rfl⟩
  | succ fuel ih =>
    intro page empty k1 k2
    by_cases hc : page ≤ maxPages ∧ empty < 2
    · cases hgl : getProductLinksFromPage env config page with
      | none =>
        obtain ⟨ka, h1⟩ :=
          scrapeLoop_step_fail env config s1 rng1 maxPages fuel page empty k1 hc hgl
        obtain ⟨kb, h2⟩ :=
          scrapeLoop_step_fail env config s2 rng2 maxPages fuel page empty k2 hc hgl
        obtain ⟨hp, hv, hpv, hfp, hfe⟩ := ih (page + 1) (empty + 1) ka kb
        exact ⟨by rw [h1.1, h2.1, hp], by rw [h1.2.1, h2.2.1, hv],
          by rw [h1.2.2.1, h2.2.2.1, hpv], by rw [h1.2.2.2.1, h2.2.2.2.1, hfp],
          by rw [h1.2.2.2.2, h2.2.2.2.2, hfe]⟩
      | some links =>
        by_cases hne : links = []
        · subst hne
          obtain ⟨ka, h1⟩ :=
            scrapeLoop_step_noCandidates env config s1 rng1 maxPages fuel page empty k1 hc hgl
          obtain ⟨kb, h2⟩ :=
            scrapeLoop_step_noCandidates env config s2 rng2 maxPages fuel page empty k2 hc hgl
          obtain ⟨hp, hv, hpv, hfp, hfe⟩ := ih (page + 1) (empty + 1) ka kb
          exact ⟨by rw [h1.1, h2.1, hp], by rw [h1.2.1, h2.2.1, hv],
            by rw [h1.2.2.1, h2.2.2.1, hpv], by rw [h1.2.2.2.1, h2.2.2.2.1, hfp],
            by rw [h1.2.2.2.2, h2.2.2.2.2, hfe]⟩
        · obtain ⟨hop, hov, hot⟩ :=
            processProducts_pacing_independent env config s1 s2 rng1 rng2 links
              (simulateHumanBehavior s1 rng1 k1 "browsing").2
              (simulateHumanBehavior s2 rng2 k2 "browsing").2
          cases hthrew : (processProducts env config s1 rng1 links
            (simulateHumanBehavior s1 rng1 k1 "browsing").2).threw with
          | true =>
            have hthrew2 : (processProducts env config s2 rng2 links
                (simulateHumanBehavior s2 rng2 k2 "browsing").2).threw = true :=
              hot.symm.trans hthrew
            obtain ⟨ka, h1⟩ :=
              scrapeLoop_step_threw env config s1 rng1 maxPages fuel page empty k1 links
                hc hgl hne hthrew
            obtain ⟨kb, h2⟩ :=
              scrapeLoop_step_threw env config s2 rng2 maxPages fuel page empty k2 links
                hc hgl hne hthrew2
            obtain ⟨hp, hv, hpv, hfp, hfe⟩ := ih (page + 1) 1 ka kb
            exact ⟨by rw [h1.1, h2.1, hp, hop], by rw [h1.2.1, h2.2.1, hv],
              by rw [h1.2.2.1, h2.2.2.1, hpv, hov],
              by rw [h1.2.2.2.1, h2.2.2.2.1, hfp],
              by rw [h1.2.2.2.2, h2.2.2.2.2, hfe]⟩
          | false =>
            have hthrew2 : (processProducts env config s2 rng2 links
                (simulateHumanBehavior s2 rng2 k2 "browsing").2).threw = false :=
              hot.symm.trans hthrew
            obtain ⟨ka, h1⟩ :=
              scrapeLoop_step_ok env config s1 rng1 maxPages fuel page empty k1 links
                hc hgl hne hthrew
            obtain ⟨kb, h2⟩ :=
              scrapeLoop_step_ok env config s2 rng2 maxPages fuel page empty k2 links
                hc hgl hne hthrew2
            obtain ⟨hp, hv, hpv, hfp, hfe⟩ := ih (page + 1) 0 ka kb
            exact ⟨by rw [h1.1, h2.1, hp, hop], by rw [h1.2.1, h2.2.1, hv],
              by rw [h1.2.2.1, h2.2.2.1, hpv, hov],
              by rw [h1.2.2.2.1, h2.2.2.2.1, hfp],
              by rw [h1.2.2.2.2, h2.2.2.2.2, hfe]⟩
    · rw [scrapeLoop_halt env config s1 rng1 maxPages (fuel + 1) page empty k1 hc,
        scrapeLoop_halt env config s2 rng2 maxPages (fuel + 1) page empty k2 hc]
      exact ⟨rfl, rfl, rfl, rfl, rfl⟩

/-- C9: two crawls over the same environment and profile, one with
humanized pacing and one with plain pacing (and any random draws),
produce the same record sequence, visit the same pages and product
URLs, and end with the same counters — the pacing mode influences only
the emitted pacing events. -/
theorem pacing_mode_independent_results (env : Env) (config : ScraperConfig)
    (maxPages : Nat) (s1 s2 : Bool) (rng1 rng2 : Nat → Nat) :
    (scrapeProducts env config s1 rng1 maxPages).products
      = (scrapeProducts env config s2 rng2 maxPages).products ∧
    (scrapeProducts env config s1 rng1 maxPages).visited
      = (scrapeProducts env config s2 rng2 maxPages).visited ∧
    (scrapeProducts env config s1 rng1 maxPages).productVisits
      = (scrapeProducts env config s2 rng2 maxPages).productVisits ∧
    (scrapeProducts env config s1 rng1 maxPages).finalPage
      = (scrapeProducts env config s2 rng2 maxPages).finalPage ∧
    (scrapeProducts env config s1 rng1 maxPages).finalEmpty
      = (scrapeProducts env config s2 rng2 maxPages).finalEmpty :=
  scrapeLoop_pacing_independent env config maxPages s1 s2 rng1 rng2
    (maxPages + 1) 1 0 0 0

end WebScrapper
